import Mathlib

/-!
Verification development for the CompliLedger PoC repository.

Shallow embedding of the repository's frontend and operational code:

* `src/PoC/frontend/src/lib/api.ts` — the typed fetch helpers `req` (JSON,
  20 s timeout) and `reqForm` (multipart, 30 s timeout), their non-2xx error
  path, and the `verificationApi` endpoint group.
* `src/PoC/frontend/src/pages/CompanyPortal.tsx` — the status-polling loop
  (`tick` inside the polling `useEffect`), `startAnalysis`, and `exportPdf`.
* the wallet hook `useWallet` (Pera wallet integration) and its
  `signTransactions` / `handleConnect` / `handleDisconnect` /
  session-reconnect operations.
* `src/PoC/compliledger/tests/run_api_test.sh` — the API test-runner script.

JavaScript strings are modelled as Lean `String`s; `toLowerCase`, `includes`
and `slice` are given explicit executable models below.  React state updates
are modelled by explicit state passing; a closure captured by an effect keeps
the state values of the render in which the effect ran (React state setters
never mutate an already-captured binding), which the embedding makes explicit
where it matters.
-/

namespace CompliLedger

/-! ### JavaScript string primitives -/

/-- Model of JS `String.prototype.toLowerCase` (character-wise lowering). -/
def jsToLower (s : String) : String := String.mk (s.toList.map Char.toLower)

/-- Helper for `jsIncludes`: does `pat` occur as a contiguous run of `l`? -/
def includesGo (pat : List Char) : List Char → Bool
  | [] => pat.isEmpty
  | c :: rest => List.isPrefixOf pat (c :: rest) || includesGo pat rest

/-- Model of JS `s.includes(pat)`. -/
def jsIncludes (s pat : String) : Bool := includesGo pat.toList s.toList

/-- Model of JS `s.slice(0, n)`. -/
def jsSlice (s : String) (n : Nat) : String := String.mk (s.toList.take n)

/-- Model of JS `v || d` for an optional string `v` (both `undefined`/`null`
and the empty string are falsy). -/
def jsOrStr (v : Option String) (d : String) : String :=
  match v with
  | none => d
  | some s => if s = "" then d else s

/-- JS truthiness of a `string | null` value: `null` and `''` are falsy. -/
def jsTruthyStr : Option String → Bool
  | none => false
  | some s => s != ""

/-! ### Frontend API client — `src/PoC/frontend/src/lib/api.ts`

`req` and `reqForm` wrap `fetch`.  Both arm an `AbortController` timeout
before the call (`setTimeout(() => controller.abort(), 20000)` in `req`,
`30000` in `reqForm`) and clear it in a `finally` block, so the timer events
around a call are the same on every path.  A non-`ok` response makes the
helper read the body text, log a 500-character preview, and throw
`new Error(`${res.status} ${res.statusText}${text ? `: ${text}` : ''}`)`. -/

/-- A resolved `fetch` response as the helpers consume it. -/
structure FetchResponse where
  status : Nat
  statusText : String
  contentType : String
  body : String
deriving DecidableEq, Repr

/-- `res.ok` per the fetch specification: status in the range 200–299. -/
def FetchResponse.ok (r : FetchResponse) : Bool :=
  decide (200 ≤ r.status ∧ r.status < 300)

/-- Message of the `Error` thrown on a non-2xx response:
`${res.status} ${res.statusText}${text ? `: ${text}` : ''}`.
Note the template interpolates the full body text read from the response. -/
def throwMessage (r : FetchResponse) : String :=
  toString r.status ++ " " ++ r.statusText ++
    (if r.body = "" then "" else ": " ++ r.body)

/-- The body preview written by `console.error` on that path:
`text.slice(0, 500)`. -/
def loggedBody (r : FetchResponse) : String := jsSlice r.body 500

/-- Timer/fetch events of one helper invocation. -/
inductive ApiEvent where
  | setTimeoutMs : Nat → ApiEvent
  | fetchCall : ApiEvent
  | clearTimeoutCall : ApiEvent
deriving DecidableEq, Repr

/-- Outcome of the awaited `fetch`: either the promise rejected (network
error or abort), or it resolved to a response. -/
inductive FetchOutcome where
  | fetchFailure : FetchOutcome
  | response : FetchResponse → FetchOutcome

/-- The JSON helper `req`.  First component: the call's result (`Except.error`
models a thrown exception).  Second component: the timer/fetch event trace —
the timeout is armed before the `try` block and cleared in `finally`, so the
trace is identical on the success, non-2xx and rejection paths. -/
def req (o : FetchOutcome) : Except String String × List ApiEvent :=
  (match o with
   | .fetchFailure => Except.error "fetch rejected"
   | .response r =>
       if r.ok then Except.ok r.body else Except.error (throwMessage r),
   [ApiEvent.setTimeoutMs 20000, ApiEvent.fetchCall, ApiEvent.clearTimeoutCall])

/-- The multipart helper `reqForm`: same shape as `req` with a 30 s timeout;
its non-2xx branch builds the identical error message template. -/
def reqForm (o : FetchOutcome) : Except String String × List ApiEvent :=
  (match o with
   | .fetchFailure => Except.error "fetch rejected"
   | .response r =>
       if r.ok then Except.ok r.body else Except.error (throwMessage r),
   [ApiEvent.setTimeoutMs 30000, ApiEvent.fetchCall, ApiEvent.clearTimeoutCall])

/-- Path posted by `verificationApi.submit`. -/
def submitPath : String := "/api/v1/verification/submit"

/-- Multipart form fields appended by `verificationApi.submit`
(`fd.append('artifact_id', …)`, `'profile_id'`, `'wallet_address'`). -/
def submitFormFields (artifact_id profile_id wallet_address : String) :
    List (String × String) :=
  [("artifact_id", artifact_id), ("profile_id", profile_id),
   ("wallet_address", wallet_address)]

/-- The method names defined on the `verificationApi` object literal in
`api.ts` (lines 106–116): `submit`, `status`, `reports`. -/
def verificationApiMethods : List String := ["submit", "status", "reports"]

/-- The method name `CompanyPortal.startAnalysis` invokes on
`verificationApi` (CompanyPortal.tsx line 168). -/
def startAnalysisMethod : String := "submitByArtifact"

/-- The argument list passed at that call site:
`verificationApi.submitByArtifact(artifactId, complianceStandard)`. -/
def startAnalysisArgs (artifactId complianceStandard : String) : List String :=
  [artifactId, complianceStandard]

/-! ### Company-portal polling loop — `CompanyPortal.tsx`, `tick`

The polling `useEffect` (deps `[artifactHash, shouldPoll]`) defines `tick`,
calls it once immediately, and re-arms it with `setTimeout`.  `tick` closes
over the `verificationStatus` value of the render in which the effect ran;
`setVerificationStatus` creates new renders but never changes that captured
binding, and the effect is not re-run while the deps are unchanged, so the
captured value stays fixed for the lifetime of the loop (`closureStatus`
below).  `startAnalysis` sets `verificationStatus` to `'pending'` before
setting `shouldPoll`, so a loop it starts captures `'pending'`. -/

/-- The portal's normalized verification status values. -/
inductive VStatus where
  | pending : VStatus
  | verified : VStatus
  | failed : VStatus
deriving DecidableEq, BEq, Repr

/-- A response of `GET /api/v1/verification/status/…` as `tick` reads it:
`status_code` is the numeric code when present (`typeof s?.status_code ===
'number'`), `status` the status text (`s?.status || ''`). -/
structure StatusResponse where
  status_code : Option Int
  status : String
deriving DecidableEq, BEq, Repr

/-- Badge normalization performed by `tick`:
code 1 or text containing `verified`/`success` ⇒ verified;
else code 2 or text containing `fail` ⇒ failed; else pending. -/
def normalizeStatus (r : StatusResponse) : VStatus :=
  let text := jsToLower r.status
  if r.status_code == some 1 || jsIncludes text "verified" ||
      jsIncludes text "success" then
    VStatus.verified
  else if r.status_code == some 2 || jsIncludes text "fail" then
    VStatus.failed
  else
    VStatus.pending

/-- The terminal check `tick` performs after setting the badge:
`verificationStatus === 'verified' || verificationStatus === 'failed' ||
code === 1 || code === 2`, where `verificationStatus` is the closure-captured
value (see section comment), not the value just passed to the setter. -/
def stopCondition (closureStatus : Option VStatus) (r : StatusResponse) : Bool :=
  closureStatus == some VStatus.verified ||
    closureStatus == some VStatus.failed ||
    r.status_code == some 1 || r.status_code == some 2

/-- `const delay = attempts <= 3 ? 3000 : 8000` (in ms), evaluated after
`attempts += 1`. -/
def pollDelay (attempts : Nat) : Nat := if attempts ≤ 3 then 3000 else 8000

/-- Component state relevant to one run of the polling loop. -/
structure PollState where
  attempts : Nat
  closureStatus : Option VStatus
  statusData : Option StatusResponse
  verificationStatus : Option VStatus
  shouldPoll : Bool
deriving DecidableEq, Repr

/-- Outcome of the awaited `verificationApi.status` call inside `tick`. -/
inductive PollOutcome where
  | fetchFailure : PollOutcome
  | response : StatusResponse → PollOutcome

/-- One execution of `tick`.  Returns the updated component state and the
delay (ms) of the `setTimeout` re-arming the loop — `none` when `tick`
returned without scheduling a further status request.

On a thrown status request the `catch {}` swallows the error and execution
falls through to the backoff re-arm.  On a response, `setStatusData` and the
badge setter run first; then the terminal check (`stopCondition` on the
closure-captured status and the response's code) either clears the timer,
sets `shouldPoll` to false and returns, or execution falls through to
`attempts += 1` and the `setTimeout` re-arm. -/
def tick (st : PollState) (o : PollOutcome) : PollState × Option Nat :=
  match o with
  | .fetchFailure =>
      ({ st with attempts := st.attempts + 1 },
       some (pollDelay (st.attempts + 1)))
  | .response r =>
      let st1 : PollState :=
        { st with statusData := some r,
                  verificationStatus := some (normalizeStatus r) }
      if stopCondition st.closureStatus r then
        ({ st1 with shouldPoll := false }, none)
      else
        ({ st1 with attempts := st1.attempts + 1 },
         some (pollDelay (st1.attempts + 1)))

/-- State at the moment the polling effect starts a loop: no request made
yet, `verificationStatus` just set to `'pending'` by `startAnalysis` (hence
also the closure-captured value), `shouldPoll` true. -/
def initialPollState : PollState :=
  ⟨0, some VStatus.pending, none, some VStatus.pending, true⟩

/-- The loop iterated over a sequence of request outcomes: `runPoll o k` is
the state and re-arm delay right after the `(k+1)`-th status request. -/
def runPoll (o : Nat → PollOutcome) : Nat → PollState × Option Nat
  | 0 => tick initialPollState (o 0)
  | k + 1 => tick (runPoll o k).1 (o (k + 1))

/-- A request outcome on which a freshly started loop does not stop: a
thrown request, or a response failing the code's terminal check. -/
def nonTerminal : PollOutcome → Prop
  | .fetchFailure => True
  | .response r => stopCondition (some VStatus.pending) r = false

/-- Issue time, in ms after loop start, of the `(k+1)`-th status request of a
loop that keeps re-arming (the first request is issued synchronously when
the effect runs). -/
def requestTime (o : Nat → PollOutcome) : Nat → Nat
  | 0 => 0
  | k + 1 => requestTime o k + ((runPoll o k).2.getD 0)

/-- A status-poll outcome sequence that reports `pending` forever. -/
def steadyPending : Nat → PollOutcome :=
  fun _ => PollOutcome.response ⟨some 0, "pending"⟩

/-! ### Wallet hook — `useWallet`

State: `accounts : string[]`, `activeAccount : string | null`, and the
derived flag `const isConnected = !!activeAccount`.  External wallet calls
(`peraWallet.connect()`, `peraWallet.reconnectSession()`) are modelled by
passing their result in: `none` models the awaited promise rejecting (the
`catch` then leaves the component state unchanged). -/

/-- Wallet-session state held by the hook. -/
structure WalletState where
  accounts : List String
  activeAccount : Option String
deriving DecidableEq, Repr

/-- `const isConnected = !!activeAccount`. -/
def isConnected (st : WalletState) : Bool := jsTruthyStr st.activeAccount

/-- `handleConnect`: on a resolved `peraWallet.connect()` the hook always
stores the returned account list and, only when it is non-empty, makes its
first element the active account; a rejected connect (`none`, e.g. the user
closed the modal) is caught and leaves the state unchanged. -/
def handleConnect (st : WalletState) : Option (List String) → WalletState
  | none => st
  | some newAccounts =>
      if 0 < newAccounts.length then ⟨newAccounts, newAccounts.head?⟩
      else ⟨newAccounts, st.activeAccount⟩

/-- `handleDisconnect`: `setAccounts([]); setActiveAccount(null)`. -/
def handleDisconnect (_st : WalletState) : WalletState := ⟨[], none⟩

/-- The page-load reconnect effect: on a resolved
`peraWallet.reconnectSession()` it adopts the accounts only when the wallet
reports connected and the list is non-empty (`if (peraWallet.isConnected &&
newAccounts.length)`); otherwise — including a rejected promise (`none`,
logged via `console.info` only) — the state is unchanged. -/
def reconnectEffect (st : WalletState) :
    Option (Bool × List String) → WalletState
  | none => st
  | some (walletConnected, newAccounts) =>
      if walletConnected && !newAccounts.isEmpty then
        ⟨newAccounts, newAccounts.head?⟩
      else st

/-- An Algorand transaction (opaque for the claims below). -/
structure Transaction where
  txId : Nat
deriving DecidableEq, Repr

/-- Outcome of `signTransactions`: a thrown error, or the signing request
submitted to the wallet (a list of transaction groups, as
`peraWallet.signTransaction` expects). -/
inductive SignOutcome where
  | errorThrown : String → SignOutcome
  | signRequest : List (List Transaction) → SignOutcome
deriving DecidableEq, Repr

/-- `signTransactions(transactions)`: throws when `!isConnected`; otherwise
submits `peraWallet.signTransaction([transactions])` — the passed
transactions wrapped as one single group. -/
def signTransactions (st : WalletState) (txs : List Transaction) : SignOutcome :=
  if isConnected st then SignOutcome.signRequest [txs]
  else SignOutcome.errorThrown "Wallet not connected"

/-- The claimed invariant of the useWallet state: the active account, when
set, is the first element of the accounts list. -/
def activeIsHead (st : WalletState) : Prop :=
  ∀ a, st.activeAccount = some a → st.accounts.head? = some a

/-! ### Company-portal printable export — `CompanyPortal.tsx`, `exportPdf`

`exportPdf` builds a standalone HTML document from component state alone
(`complianceScore`, `controlsPassed`, `controlsFailed`, `findings`,
`oscalLinks`) and writes it into a new window; it issues no request through
the API client.  The embedding models the rendered document structurally:
the summary numbers, the rendered findings (`findings.slice(0, 10)`), and
the list of backend requests issued while rendering (none). -/

/-- A finding as `exportPdf` consumes it (parsed from fetched JSON, so every
field may be absent). -/
structure Finding where
  title : Option String
  id : Option String
  description : Option String
  severity : Option String
  control_tags : List String
deriving DecidableEq, Repr

/-- One finding block of the export document. -/
structure RenderedFinding where
  heading : String
  severityBadge : Option String
  sevClass : String
  descriptionBlock : Option String
  tags : List String
deriving DecidableEq, Repr

/-- Rendering of the `i`-th exported finding:
`sev = String(f?.severity || '').toLowerCase()`;
`sevCls = sev.includes('high') ? 'high' : sev.includes('medium') ? 'medium' : 'low'`;
the severity badge `<span class="sev …">` is emitted only when `sev` is
truthy (non-empty); heading `f?.title || f?.id || `Finding ${i+1}``;
the description block only when the description is truthy. -/
def renderFinding (i : Nat) (f : Finding) : RenderedFinding :=
  let sev := jsToLower (f.severity.getD "")
  let sevCls :=
    if jsIncludes sev "high" then "high"
    else if jsIncludes sev "medium" then "medium"
    else "low"
  { heading := jsOrStr f.title (jsOrStr f.id ("Finding " ++ toString (i + 1)))
    severityBadge := if sev = "" then none else some (f.severity.getD "")
    sevClass := sevCls
    descriptionBlock :=
      if f.description.getD "" = "" then none else some (f.description.getD "")
    tags := f.control_tags }

/-- The export document, structurally. -/
structure ExportDoc where
  score : Option Int
  passedCount : Option Int
  failedCount : Option Int
  renderedFindings : List RenderedFinding
  backendRequests : List String
deriving DecidableEq, Repr

/-- `exportPdf` on the component state it reads: the summary section carries
the score and the passed/failed counts; the findings section renders
`topFindings = (findings || []).slice(0, 10)`; no backend request is
issued. -/
def exportPdf (score passed failed : Option Int) (findings : List Finding) :
    ExportDoc :=
  { score := score
    passedCount := passed
    failedCount := failed
    renderedFindings := ((findings.take 10).enum.map fun p => renderFinding p.1 p.2)
    backendRequests := [] }

/-! ### API test-runner script — `run_api_test.sh` -/

/-- Process-level actions of the script, in order. -/
inductive ScriptEvent where
  | exportEnvVars : ScriptEvent
  | startApiServer : ScriptEvent
  | sleepSeconds : Nat → ScriptEvent
  | runIntegrationTest : ScriptEvent
  | killApiServer : ScriptEvent
  | printBanner : Bool → ScriptEvent
deriving DecidableEq, Repr

/-- `run_api_test.sh`, parametrized by the integration test's exit code:
exports env vars, starts the API server in the background, `sleep 5`, runs
`test_api_integration.py` capturing `TEST_EXIT_CODE=$?`, kills the server,
prints the success banner iff `TEST_EXIT_CODE -eq 0`, and exits with
`TEST_EXIT_CODE`.  Result: the event trace and the script's exit code. -/
def run_api_test (testExitCode : Nat) : List ScriptEvent × Nat :=
  ([ScriptEvent.exportEnvVars, ScriptEvent.startApiServer,
    ScriptEvent.sleepSeconds 5, ScriptEvent.runIntegrationTest,
    ScriptEvent.killApiServer, ScriptEvent.printBanner (testExitCode == 0)],
   testExitCode)

/-- Concrete non-2xx response with a 501-character body, used to compare the
thrown error message with the spec's truncation claim. -/
def cexResp : FetchResponse :=
  ⟨500, "Internal Server Error", "text/plain", String.mk (List.replicate 501 'x')⟩

/-- The spec claim's version of the thrown message, carrying at most 500
characters of the response body (stated for comparison with `throwMessage`,
which is what the code throws). -/
def claimedThrowMessage (r : FetchResponse) : String :=
  toString r.status ++ " " ++ r.statusText ++
    (if r.body = "" then "" else ": " ++ jsSlice r.body 500)

/-! ## Theorems -/

theorem strMk_length (l : List Char) : (String.mk l).length = l.length := rfl

/-- Claim C1: the claim says `startAnalysis` issues a POST to
`/api/v1/verification/submit` carrying `artifact_id`, `profile_id` and
`wallet_address` as multipart fields.  The API client's `submit` helper does
build exactly that request, but `startAnalysis` invokes
`verificationApi.submitByArtifact(artifactId, complianceStandard)` — a
method the `verificationApi` object does not define, and with only two
arguments (no wallet address) — so the documented submission is never
issued.  This theorem evaluates the code at that call site. -/
theorem startAnalysis_submit_method_missing :
    verificationApiMethods.contains startAnalysisMethod = false ∧
    (startAnalysisArgs "art-1" "default").length = 2 ∧
    submitFormFields "art-1" "default" "WALLETADDR" =
      [("artifact_id", "art-1"), ("profile_id", "default"),
       ("wallet_address", "WALLETADDR")] ∧
    submitPath = "/api/v1/verification/submit" := by
  refine ⟨?_, rfl, rfl, rfl⟩
  decide

/-- Claim C2: the claim says polling stops as soon as a poll response shows
status code 1 or 2 *or* a status text matching `verified`/`failed`.  On a
response carrying only a matching text (no numeric `status_code`), `tick`
sets the badge to `verified` but still schedules the next request in 3 s:
the terminal check reads the closure-captured `verificationStatus` (still
`'pending'`) rather than the value just set, so only `status_code` 1 or 2
stops the loop.  This theorem evaluates `tick` at such a response. -/
theorem poll_text_terminal_not_stopped :
    normalizeStatus ⟨none, "verified"⟩ = VStatus.verified ∧
    (tick initialPollState (PollOutcome.response ⟨none, "verified"⟩)).1.verificationStatus
      = some VStatus.verified ∧
    (tick initialPollState (PollOutcome.response ⟨none, "verified"⟩)).2 = some 3000 ∧
    (tick initialPollState (PollOutcome.response ⟨none, "verified"⟩)).1.shouldPoll = true := by
  decide

/-- Claim C5: every call through the API client arms a hard timeout of
exactly 20 s (JSON helper) or 30 s (multipart helper) before fetching, and
the timer is cleared once the call completes, on the success path and on
both failure paths alike. -/
theorem api_timeout_armed_and_cleared :
    ∀ o : FetchOutcome,
      (req o).2 = [ApiEvent.setTimeoutMs 20000, ApiEvent.fetchCall,
                   ApiEvent.clearTimeoutCall] ∧
      (reqForm o).2 = [ApiEvent.setTimeoutMs 30000, ApiEvent.fetchCall,
                       ApiEvent.clearTimeoutCall] :=
  fun _ => ⟨rfl, rfl⟩

/-- Claim C8: the test-runner script starts the backend API process, waits a
fixed 5-second grace period, runs the integration test, then kills the API
process; its own exit code equals the test's exit code, and the printed
banner reports success exactly when that code is 0. -/
theorem run_api_test_propagates_exit (e : Nat) :
    (run_api_test e).2 = e ∧
    (run_api_test e).1 =
      [ScriptEvent.exportEnvVars, ScriptEvent.startApiServer,
       ScriptEvent.sleepSeconds 5, ScriptEvent.runIntegrationTest,
       ScriptEvent.killApiServer, ScriptEvent.printBanner (e == 0)] ∧
    ((e == 0) = true ↔ (run_api_test e).2 = 0) := by
  refine ⟨rfl, rfl, ?_⟩
  simp [run_api_test]

/-- Claim C9: a status poll whose request throws is swallowed by the empty
`catch`: the displayed response and badge are unchanged, the run is not
marked failed, `shouldPoll` stays as it was, and the next poll is scheduled
under the same backoff schedule with the attempt counter incremented. -/
theorem tick_error_swallowed (st : PollState) :
    (tick st PollOutcome.fetchFailure).1.statusData = st.statusData ∧
    (tick st PollOutcome.fetchFailure).1.verificationStatus = st.verificationStatus ∧
    (tick st PollOutcome.fetchFailure).1.shouldPoll = st.shouldPoll ∧
    (tick st PollOutcome.fetchFailure).1.closureStatus = st.closureStatus ∧
    (tick st PollOutcome.fetchFailure).1.attempts = st.attempts + 1 ∧
    (tick st PollOutcome.fetchFailure).2 = some (pollDelay (st.attempts + 1)) :=
  ⟨rfl, rfl, rfl, rfl, rfl, rfl⟩

/-- Helper: along a loop none of whose outcomes satisfies the code's
terminal check, after the `(k+1)`-th request the attempt counter is `k+1`,
the closure-captured status is still `pending`, and the next request is
scheduled after `pollDelay (k+1)`. -/
theorem runPoll_nonTerminal (o : Nat → PollOutcome)
    (ho : ∀ j, nonTerminal (o j)) :
    ∀ k, (runPoll o k).1.attempts = k + 1 ∧
      (runPoll o k).1.closureStatus = some VStatus.pending ∧
      (runPoll o k).2 = some (pollDelay (k + 1)) := by
  intro k
  induction k with
  | zero =>
    cases hc : o 0 with
    | fetchFailure => simp [runPoll, hc, tick, initialPollState]
    | response r =>
      have hnt : stopCondition (some VStatus.pending) r = false := by
        have := ho 0
        rw [hc] at this
        exact this
      simp [runPoll, hc, tick, initialPollState, hnt]
  | succ k ih =>
    obtain ⟨ha, hcl, _⟩ := ih
    cases hc : o (k + 1) with
    | fetchFailure =>
      refine ⟨?_, ?_, ?_⟩ <;> simp [runPoll, hc, tick, ha, hcl]
    | response r =>
      have hnt : stopCondition (some VStatus.pending) r = false := by
        have := ho (k + 1)
        rw [hc] at this
        exact this
      have hst : stopCondition (runPoll o k).1.closureStatus r = false := by
        rw [hcl]; exact hnt
      refine ⟨?_, ?_, ?_⟩ <;> simp [runPoll, hc, tick, hst, hnt, ha, hcl]

/-- Claim C3: in a polling loop that never observes an outcome passing the
code's terminal check, the first status request is issued immediately (time
0), the next three requests are spaced 3 s apart, and every subsequent
request is spaced 8 s apart: the delay between request `k` and request
`k+1` (0-based) is 3000 ms for `k < 3` and 8000 ms for `k ≥ 3`. -/
theorem poll_backoff_schedule (o : Nat → PollOutcome)
    (ho : ∀ j, nonTerminal (o j)) :
    requestTime o 0 = 0 ∧
    ∀ k, requestTime o (k + 1) =
      requestTime o k + (if k < 3 then 3000 else 8000) := by
  refine ⟨rfl, fun k => ?_⟩
  have hd := (runPoll_nonTerminal o ho k).2.2
  show requestTime o k + ((runPoll o k).2.getD 0) = _
  rw [hd]
  simp only [Option.getD, pollDelay]
  split_ifs <;> omega

/-- Witness for C3: along the constant `pending` response sequence, the
fifth status request is issued 17 s after the first (0 + 3 + 3 + 3 + 8). -/
theorem poll_backoff_schedule_witness :
    requestTime steadyPending 4 = 17000 := by
  have h := poll_backoff_schedule steadyPending (fun j =>
    (by decide :
      stopCondition (some VStatus.pending) ⟨some 0, "pending"⟩ = false))
  obtain ⟨h0, hs⟩ := h
  have h1 := hs 0
  have h2 := hs 1
  have h3 := hs 2
  have h4 := hs 3
  norm_num at h1 h2 h3 h4
  omega

set_option maxRecDepth 10000 in
/-- Counterexample for claim C4: the claim says the thrown error carries at
most 500 characters of the response body.  On a non-2xx response whose body
has 501 characters, the message the code throws (`throwMessage`, which
interpolates the full body text) differs from the claimed
500-character-truncated message: the truncation exists only in the console
log, not in the thrown error. -/
theorem req_error_truncation_cex :
    throwMessage cexResp ≠ claimedThrowMessage cexResp := by
  decide

/-- Claim C4 (amended): every non-2xx response makes both helpers throw an
error whose message carries the numeric status code, the status text, and
the **full** response body; the 500-character truncation applies only to
the body preview written to the console log. -/
theorem req_error_carries_full_body (r : FetchResponse) (h : r.ok = false) :
    (req (FetchOutcome.response r)).1 = Except.error (throwMessage r) ∧
    (reqForm (FetchOutcome.response r)).1 = Except.error (throwMessage r) ∧
    (∃ s, throwMessage r = s ++ r.body) ∧
    (loggedBody r).length ≤ 500 := by
  refine ⟨by simp [req, h], by simp [reqForm, h], ?_, ?_⟩
  · by_cases hb : r.body = ""
    · refine ⟨toString r.status ++ " " ++ r.statusText, ?_⟩
      rw [throwMessage, if_pos hb, hb]
    · refine ⟨toString r.status ++ " " ++ r.statusText ++ ": ", ?_⟩
      rw [throwMessage, if_neg hb]
      simp [String.append_assoc]
  · simp [loggedBody, jsSlice, strMk_length]

/-- Witness for the amended C4 at a concrete 404 response. -/
theorem req_error_carries_full_body_witness :
    (req (FetchOutcome.response ⟨404, "Not Found", "text/plain", "nope"⟩)).1
      = Except.error (throwMessage ⟨404, "Not Found", "text/plain", "nope"⟩) ∧
    (reqForm (FetchOutcome.response ⟨404, "Not Found", "text/plain", "nope"⟩)).1
      = Except.error (throwMessage ⟨404, "Not Found", "text/plain", "nope"⟩) ∧
    (∃ s, throwMessage ⟨404, "Not Found", "text/plain", "nope"⟩ = s ++ "nope") ∧
    (loggedBody ⟨404, "Not Found", "text/plain", "nope"⟩).length ≤ 500 :=
  req_error_carries_full_body ⟨404, "Not Found", "text/plain", "nope"⟩ (by decide)

/-- Claim C6: `signTransactions` with no connected wallet session throws the
"Wallet not connected" error and submits no signing request; with a
connected session it submits the given transactions to the wallet wrapped
as one single signing group — also when only one transaction is present
(see the witness). -/
theorem signTransactions_requires_connection (st : WalletState)
    (txs : List Transaction) :
    (isConnected st = false →
      signTransactions st txs = SignOutcome.errorThrown "Wallet not connected") ∧
    (isConnected st = true →
      signTransactions st txs = SignOutcome.signRequest [txs]) := by
  constructor <;> intro h <;> simp [signTransactions, h]

/-- Witness for C6: a disconnected and a connected session, each signing a
single transaction; the connected one submits the singleton group
`[[tx]]`. -/
theorem signTransactions_requires_connection_witness :
    signTransactions ⟨[], none⟩ [⟨1⟩] =
      SignOutcome.errorThrown "Wallet not connected" ∧
    signTransactions ⟨["WALLETADDR"], some "WALLETADDR"⟩ [⟨1⟩] =
      SignOutcome.signRequest [[⟨1⟩]] :=
  ⟨(signTransactions_requires_connection ⟨[], none⟩ [⟨1⟩]).1 rfl,
   (signTransactions_requires_connection
      ⟨["WALLETADDR"], some "WALLETADDR"⟩ [⟨1⟩]).2 (by decide)⟩

/-- Counterexample for claim C7: the claim says each exported finding is
rendered with a severity badge.  A finding without a severity field is
rendered without one (the badge span is emitted only when the lower-cased
severity string is non-empty). -/
theorem exportPdf_badge_cex :
    ¬ (∀ rf ∈ (exportPdf (some 85) (some 8) (some 2)
          [⟨some "Unpinned dependency", none, none, none, []⟩]).renderedFindings,
        rf.severityBadge.isSome = true) := by
  decide

/-- Helper: the character-wise lower-casing of a string is empty exactly
when the string is. -/
theorem jsToLower_eq_empty_iff (s : String) : jsToLower s = "" ↔ s = "" := by
  cases s with
  | mk l => simp [jsToLower, String.ext_iff]

/-- Claim C7 (amended): the printable export renders the compliance score,
the controls-passed and controls-failed counts, and at most the first 10
findings — each rendered with a severity badge when it carries a non-empty
severity — and performs no backend API call. -/
theorem exportPdf_renders_summary (score passed failed : Option Int)
    (findings : List Finding) :
    (exportPdf score passed failed findings).score = score ∧
    (exportPdf score passed failed findings).passedCount = passed ∧
    (exportPdf score passed failed findings).failedCount = failed ∧
    (exportPdf score passed failed findings).backendRequests = [] ∧
    (exportPdf score passed failed findings).renderedFindings.length ≤ 10 ∧
    (exportPdf score passed failed findings).renderedFindings =
      ((findings.take 10).enum.map fun p => renderFinding p.1 p.2) ∧
    (∀ i f, f.severity.getD "" ≠ "" →
      (renderFinding i f).severityBadge = some (f.severity.getD "")) := by
  refine ⟨rfl, rfl, rfl, rfl, ?_, rfl, ?_⟩
  · simp [exportPdf]
  · intro i f h
    have hs : jsToLower (f.severity.getD "") ≠ "" := fun hc =>
      h ((jsToLower_eq_empty_iff _).mp hc)
    simp [renderFinding, hs]

/-- Witness for the amended C7: a finding with severity `high` gets its
badge, and an export of 12 findings renders at most 10. -/
theorem exportPdf_renders_summary_witness :
    (renderFinding 0 ⟨some "T", none, none, some "high", []⟩).severityBadge =
      some "high" ∧
    (exportPdf (some 85) (some 8) (some 2)
      (List.replicate 12 ⟨none, none, none, some "low", []⟩)).renderedFindings.length
      ≤ 10 := by
  have h := exportPdf_renders_summary (some 85) (some 8) (some 2)
    (List.replicate 12 ⟨none, none, none, some "low", []⟩)
  exact ⟨h.2.2.2.2.2.2 0 ⟨some "T", none, none, some "high", []⟩ (by decide),
         h.2.2.2.2.1⟩

/-- Counterexample for claim C10: the claim's invariant — the active
account, when set, is the first element of the accounts list — is broken by
a `connect` that resolves with an empty account list while a session is
already active: the accounts list is cleared but the stale active account
is retained. -/
theorem useWallet_head_invariant_cex :
    ¬ activeIsHead (handleConnect (handleConnect ⟨[], none⟩ (some ["ADDR1"]))
        (some [])) := by
  intro h
  exact Option.noConfusion (h "ADDR1" rfl)

/-- Claim C10 (amended): the connected flag is true exactly when a non-empty
active account is set; a connect or restoration yielding a non-empty
account list makes its first element the active account (so the
head-of-list invariant holds after it); a connect yielding an empty list
clears the accounts but retains the previous active account — leaving a
disconnected session disconnected — while a restoration yielding an empty
list, a rejected connect/restoration, or a wallet reported disconnected
leaves the state unchanged; and disconnect clears both the accounts list
and the active account. -/
theorem useWallet_state_invariants :
    (∀ st : WalletState, isConnected st = true ↔
        ∃ a, st.activeAccount = some a ∧ a ≠ "") ∧
    (∀ st : WalletState, ∀ accs : List String, accs ≠ [] →
        handleConnect st (some accs) = ⟨accs, accs.head?⟩ ∧
        activeIsHead (handleConnect st (some accs))) ∧
    (∀ st : WalletState, handleConnect st (some []) = ⟨[], st.activeAccount⟩) ∧
    (∀ st : WalletState, handleConnect st none = st) ∧
    (∀ st : WalletState, ∀ accs : List String, accs ≠ [] →
        reconnectEffect st (some (true, accs)) = ⟨accs, accs.head?⟩ ∧
        activeIsHead (reconnectEffect st (some (true, accs)))) ∧
    (∀ st : WalletState, ∀ c : Bool, reconnectEffect st (some (c, [])) = st) ∧
    (∀ st : WalletState, ∀ accs : List String,
        reconnectEffect st (some (false, accs)) = st) ∧
    (∀ st : WalletState, reconnectEffect st none = st) ∧
    (∀ st : WalletState, handleDisconnect st = ⟨[], none⟩ ∧
        isConnected (handleDisconnect st) = false) ∧
    (∀ st : WalletState, isConnected st = false →
        isConnected (handleConnect st (some [])) = false) := by
  refine ⟨?_, ?_, ?_, fun _ => rfl, ?_, ?_, fun _ _ => rfl, fun _ => rfl,
    fun _ => ⟨rfl, rfl⟩, ?_⟩
  · intro st
    cases st with
    | mk accounts active =>
      cases active with
      | none => simp [isConnected, jsTruthyStr]
      | some s => simp [isConnected, jsTruthyStr]
  · intro st accs h
    have hl : 0 < accs.length := List.length_pos.mpr h
    have he : handleConnect st (some accs) = ⟨accs, accs.head?⟩ := by
      simp [handleConnect, hl]
    refine ⟨he, ?_⟩
    rw [he]
    intro a ha
    exact ha
  · intro st
    rfl
  · intro st accs h
    have hne : accs.isEmpty = false := by
      simpa [List.isEmpty_iff] using h
    have he : reconnectEffect st (some (true, accs)) = ⟨accs, accs.head?⟩ := by
      simp [reconnectEffect, hne]
    refine ⟨he, ?_⟩
    rw [he]
    intro a ha
    exact ha
  · intro st c
    cases c <;> rfl
  · intro st h
    simpa [isConnected, handleConnect] using h

/-- Witness for the amended C10 at concrete connect/reconnect results. -/
theorem useWallet_state_invariants_witness :
    handleConnect ⟨[], none⟩ (some ["ADDR2"]) = ⟨["ADDR2"], some "ADDR2"⟩ ∧
    activeIsHead (handleConnect ⟨[], none⟩ (some ["ADDR2"])) ∧
    reconnectEffect ⟨[], none⟩ (some (true, ["ADDR3"])) =
      ⟨["ADDR3"], some "ADDR3"⟩ ∧
    isConnected (handleConnect ⟨[], none⟩ (some [])) = false := by
  have h := useWallet_state_invariants
  refine ⟨(h.2.1 ⟨[], none⟩ ["ADDR2"] (by decide)).1,
    (h.2.1 ⟨[], none⟩ ["ADDR2"] (by decide)).2,
    (h.2.2.2.2.1 ⟨[], none⟩ ["ADDR3"] (by decide)).1,
    h.2.2.2.2.2.2.2.2.2 ⟨[], none⟩ rfl⟩

end CompliLedger
